import Mathlib

/-!
Shallow embedding of the cartelera-backend server (src/server.js, with the
two unnamed variant files) for verification of its specification.

JavaScript strings and Node Buffers are modelled as lists of byte values
(`Str := List Nat`, each element < 256 for well-formed data).  The MySQL
store is modelled as in-memory lists of rows; parameterized queries become
pure list operations.  `db.query` faults (the `err` callback argument) are
not modelled: every claim under study concerns the fault-free store paths.
MySQL string comparison is modelled as byte equality (binary collation).
-/

namespace Cartelera

/-- A JavaScript string / Node Buffer, as its byte values. -/
abbrev Str := List Nat

/-! ### Base64 (Node `Buffer` semantics)

`Buffer.from(bytes).toString('base64')` produces standard padded base64;
`Buffer.from(s, 'base64')` never throws: characters outside the base64
alphabet (including the `=` padding) are skipped, and a trailing group of
fewer than four sextets is decoded to as many whole bytes as it holds
(a single leftover sextet yields no byte). -/

/-- The base64 alphabet character for a sextet value (0..63). -/
def b64charAt (v : Nat) : Nat :=
  if v < 26 then 65 + v
  else if v < 52 then 97 + (v - 26)
  else if v < 62 then 48 + (v - 52)
  else if v = 62 then 43
  else 47

/-- The sextet value of a base64 alphabet character; `none` for any
character outside the alphabet (such characters are skipped by Node). -/
def sextetOf (c : Nat) : Option Nat :=
  if 65 ≤ c ∧ c ≤ 90 then some (c - 65)
  else if 97 ≤ c ∧ c ≤ 122 then some (c - 97 + 26)
  else if 48 ≤ c ∧ c ≤ 57 then some (c - 48 + 52)
  else if c = 43 then some 62
  else if c = 47 then some 63
  else none

/-- Base64-encode a byte list, three input bytes per four output
characters, `=`-padded (character 61). -/
def b64encode : Str → Str
  | [] => []
  | [a] => [b64charAt (a / 4), b64charAt (a % 4 * 16), 61, 61]
  | [a, b] => [b64charAt (a / 4), b64charAt (a % 4 * 16 + b / 16), b64charAt (b % 16 * 4), 61]
  | a :: b :: c :: rest =>
      b64charAt (a / 4) :: b64charAt (a % 4 * 16 + b / 16) ::
      b64charAt (b % 16 * 4 + c / 64) :: b64charAt (c % 64) :: b64encode rest

/-- Repack a sextet stream into bytes, four sextets per three bytes; a
trailing pair yields one byte, a trailing triple two bytes, a single
leftover sextet nothing. -/
def packGroups : List Nat → List Nat
  | s1 :: s2 :: s3 :: s4 :: rest =>
      (s1 * 4 + s2 / 16) :: (s2 % 16 * 16 + s3 / 4) :: (s3 % 4 * 64 + s4) :: packGroups rest
  | [s1, s2] => [s1 * 4 + s2 / 16]
  | [s1, s2, s3] => [s1 * 4 + s2 / 16, s2 % 16 * 16 + s3 / 4]
  | _ => []

/-- Node-style lenient base64 decode: skip non-alphabet characters, then
repack the sextets. -/
def b64decode (s : Str) : Str :=
  packGroups (s.filterMap sextetOf)

/-! ### Decimal rendering and MySQL numeric coercion

JavaScript template interpolation renders an integer id in decimal;
MySQL compares a string against an integer column by numerically coercing
the string, which for a digit string is its decimal value (for a string
with no leading digits, 0). -/

/-- Fuel-driven digit expansion; the fuel only bounds the recursion depth
and any fuel above the value itself is enough. -/
def natDecimalAux : Nat → Nat → Str
  | 0, _ => []
  | fuel + 1, n =>
    if n < 10 then [48 + n]
    else natDecimalAux fuel (n / 10) ++ [48 + n % 10]

/-- Decimal digit characters of a natural number (JS number-to-string). -/
def natDecimal (n : Nat) : Str := natDecimalAux (n + 1) n

/-- MySQL-style numeric coercion of a string: value of the leading run of
decimal digits (0 when the string starts with a non-digit or is empty). -/
def sqlNatAux (acc : Nat) : Str → Nat
  | [] => acc
  | c :: r => if 48 ≤ c ∧ c ≤ 57 then sqlNatAux (acc * 10 + (c - 48)) r else acc

def sqlNat (s : Str) : Nat := sqlNatAux 0 s

/-! ### JavaScript `String.prototype.split` on a single-character separator -/

/-- JS `s.split(sep)` for a one-character separator byte: always returns a
non-empty list of the (possibly empty) segments between occurrences. -/
def splitByte (sep : Nat) : Str → List Str
  | [] => [[]]
  | c :: rest =>
    let r := splitByte sep rest
    if c = sep then [] :: r
    else (c :: r.headD []) :: r.tail

/-! ### Data model: the `login` and `cine` tables -/

/-- A row of the `login` table. -/
structure LoginRecord where
  id : Nat
  strNombre : Str
  strPwd : Str
  idEstadoUsuario : Nat
  rol : Str
deriving DecidableEq, Repr

/-- A row of the `cine` table. -/
structure Movie where
  id : Nat
  strNombre : Str
  strGenero : Str
  strSinapsis : Str
  strHorario : Str
  idSala : Int
  strImagen : Str
  strTrailerURL : Option Str
deriving DecidableEq, Repr

/-- The relational store. -/
structure Db where
  login : List LoginRecord
  cine : List Movie
deriving DecidableEq, Repr

/-! ### The authentication middleware (src/server.js lines 57-73) -/

/-- Outcome of `authMiddleware`: either the request is rejected with an
HTTP status, or `req.user = { id: userId, nombre: userName }` is attached
and the protected handler runs. -/
inductive AuthResult where
  | denied (status : Nat) (msg : String)
  | granted (userId : Str) (userName : Str)
deriving DecidableEq, Repr

/-- Whether the middleware let the request through. -/
def AuthResult.isGranted : AuthResult → Bool
  | .granted _ _ => true
  | .denied _ _ => false

/-- The middleware result together with whether a `login`-table lookup
(`db.query`) was issued while deciding it. -/
structure AuthOutcome where
  result : AuthResult
  lookupIssued : Bool
deriving DecidableEq, Repr

/-- `req.headers.authorization?.split(' ')[1]`: the second
space-separated chunk of the header, when the header is present and has
one. -/
def extractToken (h : Option Str) : Option Str :=
  h.bind (fun s => (splitByte 32 s)[1]?)

/-- `authMiddleware` (src/server.js lines 57-73).  The header token is
base64-decoded (Node decode never throws), split on `:`, destructured
into its first two segments, and looked up with
`SELECT id FROM login WHERE id = ? AND strNombre = ?` — a missing second
segment binds SQL `NULL`, which matches no row.  Note the query does not
filter on `idEstadoUsuario`, and no role is ever consulted. -/
def authMiddleware (h : Option Str) (db : Db) : AuthOutcome :=
  match extractToken h with
  | none => ⟨.denied 401 "Acceso no autorizado", false⟩
  | some t =>
    if t = [] then ⟨.denied 401 "Acceso no autorizado", false⟩
    else
      let parts := splitByte 58 (b64decode t)
      let userId := parts.headD []
      match parts[1]? with
      | none => ⟨.denied 401 "Token inválido", true⟩
      | some userName =>
        if db.login.any (fun r => r.id == sqlNat userId && r.strNombre == userName)
        then ⟨.granted userId userName, true⟩
        else ⟨.denied 401 "Token inválido", true⟩

/-- The literal `Bearer <token>` header value. -/
def bearerHeader (t : Str) : Str :=
  66 :: 101 :: 97 :: 114 :: 101 :: 114 :: 32 :: t

/-! ### The sanitizer -/

/-- Modelled from the spec: the `xss` sanitizer used by the handlers is an
external library dependency, not part of src/.  Per spec §4.4 it is an
idempotent transformation that neutralizes script-bearing markup while
preserving otherwise-safe text unchanged; we model it as stripping the
markup delimiter bytes `<` (60) and `>` (62). -/
def xss (s : Str) : Str :=
  s.filter (fun c => !(c == 60) && !(c == 62))

/-! ### Movie routes -/

/-- The JSON body of a movie create/update request; absent fields are
`none`.  `idSala` arrives as a JSON number. -/
structure MovieBody where
  strNombre : Option Str
  strGenero : Option Str
  strSinapsis : Option Str
  strHorario : Option Str
  idSala : Option Int
  strImagen : Option Str
  strTrailerURL : Option Str
deriving DecidableEq, Repr

/-- JS falsiness of an optional string value (`undefined` or `""`). -/
def falsyS : Option Str → Bool
  | none => true
  | some s => s.isEmpty

/-- JS falsiness of an optional number value (`undefined` or `0`). -/
def falsyI : Option Int → Bool
  | none => true
  | some i => i == 0

/-- The required-field guard
`!strNombre || !strGenero || !strSinapsis || !strHorario || !idSala || !strImagen`. -/
def missingRequired (b : MovieBody) : Bool :=
  falsyS b.strNombre || falsyS b.strGenero || falsyS b.strSinapsis ||
  falsyS b.strHorario || falsyI b.idSala || falsyS b.strImagen

/-- Outcome of a movie route: HTTP status, response message, resulting
store, and whether the route handler body (past the middleware) ran. -/
structure RouteOutcome where
  status : Nat
  message : String
  db : Db
  handlerRan : Bool
deriving DecidableEq, Repr

/-- `AUTO_INCREMENT` id for an insert into `cine`. -/
def nextId (cine : List Movie) : Nat :=
  (cine.foldl (fun a m => max a m.id) 0) + 1

/-- `app.post('/movies')` (src/server.js lines 145-190).  `validUrl` is an
oracle for the external `isValidUrl` helper (the host `URL` parser with a
regex fallback), consulted only when a trailer URL is supplied and
truthy. -/
def postMoviesRoute (validUrl : Str → Bool) (h : Option Str) (b : MovieBody)
    (db : Db) : RouteOutcome :=
  match (authMiddleware h db).result with
  | .denied s m => ⟨s, m, db, false⟩
  | .granted _ _ =>
    if missingRequired b then ⟨400, "Faltan parámetros requeridos", db, true⟩
    else
      let trailerBad := match b.strTrailerURL with
        | some u => !u.isEmpty && !(validUrl u)
        | none => false
      if trailerBad then ⟨400, "URL del tráiler no válida", db, true⟩
      else
        let m : Movie :=
          { id := nextId db.cine
            strNombre := xss (b.strNombre.getD [])
            strGenero := xss (b.strGenero.getD [])
            strSinapsis := xss (b.strSinapsis.getD [])
            strHorario := xss (b.strHorario.getD [])
            idSala := b.idSala.getD 0
            strImagen := xss (b.strImagen.getD [])
            strTrailerURL := match b.strTrailerURL with
              | some u => if u.isEmpty then none else some (xss u)
              | none => none }
        ⟨201, "Película agregada correctamente", { db with cine := db.cine ++ [m] }, true⟩

/-- `app.put('/movies/:id')` (src/server.js lines 192-243).  The SQL
`UPDATE ... WHERE id = ?` coerces the string route parameter numerically
against the integer `id` column; the response never depends on the
affected-row count. -/
def putMovieRoute (validUrl : Str → Bool) (h : Option Str) (idParam : Str)
    (b : MovieBody) (db : Db) : RouteOutcome :=
  match (authMiddleware h db).result with
  | .denied s m => ⟨s, m, db, false⟩
  | .granted _ _ =>
    if missingRequired b then ⟨400, "Faltan parámetros requeridos", db, true⟩
    else
      let trailerBad := match b.strTrailerURL with
        | some u => !u.isEmpty && !(validUrl u)
        | none => false
      if trailerBad then ⟨400, "URL del tráiler no válida", db, true⟩
      else
        let upd := fun (m : Movie) =>
          if m.id == sqlNat idParam then
            { m with
              strNombre := xss (b.strNombre.getD [])
              strGenero := xss (b.strGenero.getD [])
              strSinapsis := xss (b.strSinapsis.getD [])
              strHorario := xss (b.strHorario.getD [])
              idSala := b.idSala.getD 0
              strImagen := xss (b.strImagen.getD [])
              strTrailerURL := match b.strTrailerURL with
                | some u => if u.isEmpty then none else some (xss u)
                | none => none }
          else m
        ⟨200, "Película actualizada correctamente", { db with cine := db.cine.map upd }, true⟩

/-- `app.delete('/movies/:id')` (src/server.js lines 245-254).
`DELETE FROM cine WHERE id = ?`; the success response never inspects the
affected-row count. -/
def deleteMovieRoute (h : Option Str) (idParam : Str) (db : Db) : RouteOutcome :=
  match (authMiddleware h db).result with
  | .denied s m => ⟨s, m, db, false⟩
  | .granted _ _ =>
    ⟨200, "Película eliminada correctamente",
      { db with cine := db.cine.filter (fun m => !(m.id == sqlNat idParam)) }, true⟩

/-! ### Login route (src/server.js lines 257-286) -/

/-- Outcome of `POST /login`. -/
structure LoginOutcome where
  status : Nat
  token : Option Str
deriving DecidableEq, Repr

/-- `app.post('/login')`: credentials are matched against an active row
(`idEstadoUsuario = 1`); on success the first matching row yields
`token = base64("{id}:{strNombre}")`. -/
def loginRoute (strNombre strPwd : Option Str) (db : Db) : LoginOutcome :=
  if falsyS strNombre || falsyS strPwd then ⟨400, none⟩
  else
    let n := strNombre.getD []
    let p := strPwd.getD []
    match db.login.filter
        (fun r => r.strNombre == n && r.strPwd == p && r.idEstadoUsuario == 1) with
    | [] => ⟨401, none⟩
    | u :: _ => ⟨200, some (b64encode (natDecimal u.id ++ 58 :: u.strNombre))⟩

/-! ### FTP routes (src/server.js lines 76-135) -/

/-- The three stages of an FTP interaction that can raise:
`access` (connect/login), `prepare` (`ensureDir`/`cd`), and the main
`operate` step (`uploadFrom`/`list`/`remove`). -/
inductive FtpStep where
  | access
  | prepare
  | operate
deriving DecidableEq, Repr

/-- Outcome of an FTP route: HTTP status, whether a client connection was
opened, and whether `client.close()` was called before the response. -/
structure FtpOutcome where
  status : Nat
  opened : Bool
  closed : Bool
deriving DecidableEq, Repr

/-- `app.post('/upload')` body after the middleware, driven by a fault
oracle saying which FTP steps raise.  `client.close()` sits inside the
`try` after the awaits, so any raising step jumps to the catch (500)
with the connection still open. -/
def ftpUploadRoute (fault : FtpStep → Bool) (hasFile : Bool) : FtpOutcome :=
  if !hasFile then ⟨400, false, false⟩
  else if fault .access then ⟨500, true, false⟩
  else if fault .prepare then ⟨500, true, false⟩
  else if fault .operate then ⟨500, true, false⟩
  else ⟨200, true, true⟩

/-- `app.get('/list')` body: access, `cd`, `list`, close. -/
def ftpListRoute (fault : FtpStep → Bool) : FtpOutcome :=
  if fault .access then ⟨500, true, false⟩
  else if fault .prepare then ⟨500, true, false⟩
  else if fault .operate then ⟨500, true, false⟩
  else ⟨200, true, true⟩

/-- `app.delete('/delete')` body: filename guard, access, `remove`,
close. -/
def ftpDeleteRoute (fault : FtpStep → Bool) (hasFileName : Bool) : FtpOutcome :=
  if !hasFileName then ⟨400, false, false⟩
  else if fault .access then ⟨500, true, false⟩
  else if fault .operate then ⟨500, true, false⟩
  else ⟨200, true, true⟩

/-- The stored remote path of `app.post('/upload')` in src/server.js line
84: the base path joined with the raw caller-supplied
`req.file.originalname` (47 is the path separator). -/
def serverUploadPath (base name : Str) : Str :=
  base ++ 47 :: name

/-- The stored remote path of `apiRouter.post('/ftp/upload')` in
src/unnamed/part_001 line 71: the name is namespaced with `Date.now()`
and an underscore (95). -/
def apiUploadPath (base : Str) (now : Nat) (name : Str) : Str :=
  base ++ 47 :: (natDecimal now ++ 95 :: name)

/-! ### Concrete fixtures used by the concrete theorems below -/

/-- A store holding one active user `eva` (password `p`) whose role is
`user`, i.e. not the privileged role, and one movie with id 5. -/
def dbRole : Db :=
  ⟨[⟨1, [101, 118, 97], [112], 1, [117, 115, 101, 114]⟩],
   [⟨5, [116], [103], [115], [104], 1, [105], none⟩]⟩

/-- The credential `/login` issues for `eva`: base64 of `1:eva`. -/
def tokenEva : Str := b64encode [49, 58, 101, 118, 97]

/-- A store whose only credential record `a:b` (active) has a colon in
its identity. -/
def dbColon : Db := ⟨[⟨1, [97, 58, 98], [120], 1, [117]⟩], []⟩

/-- A store whose only credential record `bob` is inactive
(`idEstadoUsuario = 0`), plus one movie with id 7. -/
def dbInactive : Db :=
  ⟨[⟨1, [98, 111, 98], [120], 0, [117]⟩],
   [⟨7, [116], [103], [115], [104], 1, [105], none⟩]⟩

/-- Base64 of `1:bob`. -/
def tokenBob : Str := b64encode [49, 58, 98, 111, 98]

/-- Base64 of `abc` — a credential with no `:` separator. -/
def tokenNoColon : Str := b64encode [97, 98, 99]

/-- A movie with id 42. -/
def movie42 : Movie := ⟨42, [116], [103], [115], [104], 1, [105], none⟩

/-- Bytes of the string with script markup from the spec scenario. -/
def scriptTitle : Str :=
  [60, 115, 99, 114, 105, 112, 116, 62, 97, 108, 101, 114, 116, 40, 49, 41,
   60, 47, 115, 99, 114, 105, 112, 116, 62, 84, 105, 116, 108, 101]

/-- Fault oracle: only the main operate step raises. -/
def faultOperate : FtpStep → Bool
  | .operate => true
  | _ => false

/-- Fault oracle: no step raises. -/
def faultNone : FtpStep → Bool := fun _ => false

/-- Bytes of `/uploads`. -/
def uploadsBase : Str := [47, 117, 112, 108, 111, 97, 100, 115]

/-- Bytes of `../evil`. -/
def evilName : Str := [46, 46, 47, 101, 118, 105, 108]

/-- Bytes of `photo`. -/
def photoName : Str := [112, 104, 111, 116, 111]

/-! ## Helper lemmas -/

theorem sextetOf_b64charAt : ∀ v, v < 64 → sextetOf (b64charAt v) = some v := by
  decide

theorem sextetOf_61 : sextetOf 61 = none := by
  decide

theorem b64charAt_bounds (v : Nat) : 43 ≤ b64charAt v ∧ b64charAt v ≤ 122 := by
  unfold b64charAt
  split_ifs <;> omega

theorem b64encode_mem_bounds : ∀ l : Str, ∀ c ∈ b64encode l, 43 ≤ c ∧ c ≤ 122
  | [] => by simp [b64encode]
  | [a] => by
      intro c hc
      simp only [b64encode, List.mem_cons, List.not_mem_nil, or_false] at hc
      rcases hc with rfl | rfl | rfl | rfl
      · exact b64charAt_bounds _
      · exact b64charAt_bounds _
      · omega
      · omega
  | [a, b] => by
      intro c hc
      simp only [b64encode, List.mem_cons, List.not_mem_nil, or_false] at hc
      rcases hc with rfl | rfl | rfl | rfl
      · exact b64charAt_bounds _
      · exact b64charAt_bounds _
      · exact b64charAt_bounds _
      · omega
  | a :: b :: c :: rest => by
      intro d hd
      simp only [b64encode, List.mem_cons] at hd
      rcases hd with rfl | rfl | rfl | rfl | hd
      · exact b64charAt_bounds _
      · exact b64charAt_bounds _
      · exact b64charAt_bounds _
      · exact b64charAt_bounds _
      · exact b64encode_mem_bounds rest d hd

theorem b64encode_no_space (l : Str) : 32 ∉ b64encode l := by
  intro h
  have := b64encode_mem_bounds l 32 h
  omega

theorem b64encode_ne_nil (a : Nat) (rest : Str) : b64encode (a :: rest) ≠ [] := by
  match rest with
  | [] => simp [b64encode]
  | [b] => simp [b64encode]
  | b :: c :: r => simp [b64encode]

/-- Decoding inverts encoding on byte lists (every element < 256). -/
theorem b64_roundtrip : ∀ l : Str, (∀ b ∈ l, b < 256) → b64decode (b64encode l) = l
  | [] => fun _ => rfl
  | [a] => by
      intro h
      have ha : a < 256 := h a (by simp)
      have h1 : sextetOf (b64charAt (a / 4)) = some (a / 4) :=
        sextetOf_b64charAt _ (by omega)
      have h2 : sextetOf (b64charAt (a % 4 * 16)) = some (a % 4 * 16) :=
        sextetOf_b64charAt _ (by omega)
      simp only [b64decode, b64encode, List.filterMap_cons, h1, h2, sextetOf_61,
        List.filterMap_nil]
      simp only [packGroups]
      simp only [List.cons.injEq, and_true]
      omega
  | [a, b] => by
      intro h
      have ha : a < 256 := h a (by simp)
      have hb : b < 256 := h b (by simp)
      have h1 : sextetOf (b64charAt (a / 4)) = some (a / 4) :=
        sextetOf_b64charAt _ (by omega)
      have h2 : sextetOf (b64charAt (a % 4 * 16 + b / 16)) = some (a % 4 * 16 + b / 16) :=
        sextetOf_b64charAt _ (by omega)
      have h3 : sextetOf (b64charAt (b % 16 * 4)) = some (b % 16 * 4) :=
        sextetOf_b64charAt _ (by omega)
      simp only [b64decode, b64encode, List.filterMap_cons, h1, h2, h3, sextetOf_61,
        List.filterMap_nil]
      simp only [packGroups]
      simp only [List.cons.injEq, and_true]
      constructor
      · omega
      · omega
  | a :: b :: c :: rest => by
      intro h
      have ha : a < 256 := h a (by simp)
      have hb : b < 256 := h b (by simp)
      have hc : c < 256 := h c (by simp)
      have ih : b64decode (b64encode rest) = rest :=
        b64_roundtrip rest (fun x hx => h x (by simp [hx]))
      have ih' : packGroups (List.filterMap sextetOf (b64encode rest)) = rest := by
        simpa [b64decode] using ih
      have h1 : sextetOf (b64charAt (a / 4)) = some (a / 4) :=
        sextetOf_b64charAt _ (by omega)
      have h2 : sextetOf (b64charAt (a % 4 * 16 + b / 16)) = some (a % 4 * 16 + b / 16) :=
        sextetOf_b64charAt _ (by omega)
      have h3 : sextetOf (b64charAt (b % 16 * 4 + c / 64)) = some (b % 16 * 4 + c / 64) :=
        sextetOf_b64charAt _ (by omega)
      have h4 : sextetOf (b64charAt (c % 64)) = some (c % 64) :=
        sextetOf_b64charAt _ (by omega)
      simp only [b64decode, b64encode, List.filterMap_cons, h1, h2, h3, h4]
      simp only [packGroups, ih']
      simp only [List.cons.injEq, and_true]
      refine ⟨by omega, by omega, by omega⟩

theorem natDecimalAux_fuel : ∀ n f₁ f₂, n < f₁ → n < f₂ →
    natDecimalAux f₁ n = natDecimalAux f₂ n := by
  intro n
  induction n using Nat.strong_induction_on with
  | _ n ih =>
    intro f₁ f₂ h₁ h₂
    match f₁, f₂ with
    | g₁ + 1, g₂ + 1 =>
      by_cases hn : n < 10
      · simp [natDecimalAux, hn]
      · have hlt : n / 10 < n := Nat.div_lt_self (by omega) (by omega)
        simp only [natDecimalAux, hn, if_false]
        rw [ih (n / 10) hlt g₁ g₂ (by omega) (by omega)]

/-- The defining recurrence of `natDecimal`. -/
theorem natDecimal_eq (n : Nat) :
    natDecimal n = if n < 10 then [48 + n] else natDecimal (n / 10) ++ [48 + n % 10] := by
  by_cases hn : n < 10
  · simp [natDecimal, natDecimalAux, hn]
  · have hlt : n / 10 < n := Nat.div_lt_self (by omega) (by omega)
    rw [if_neg hn]
    have h1 : natDecimal n = natDecimalAux n (n / 10) ++ [48 + n % 10] := by
      show natDecimalAux (n + 1) n = _
      simp [natDecimalAux, hn]
    rw [h1, natDecimalAux_fuel (n / 10) n (n / 10 + 1) hlt (by omega)]
    rfl

theorem natDecimal_digits : ∀ n : Nat, ∀ b ∈ natDecimal n, 48 ≤ b ∧ b ≤ 57 := by
  intro n
  induction n using Nat.strong_induction_on with
  | _ n ih =>
    intro b hb
    rw [natDecimal_eq] at hb
    by_cases hn : n < 10
    · simp only [hn, if_true, List.mem_cons, List.not_mem_nil, or_false] at hb
      omega
    · simp only [hn, if_false, List.mem_append, List.mem_cons, List.not_mem_nil,
        or_false] at hb
      rcases hb with hb | hb
      · exact ih (n / 10) (Nat.div_lt_self (by omega) (by omega)) b hb
      · omega

theorem natDecimal_ne_nil (n : Nat) : natDecimal n ≠ [] := by
  rw [natDecimal_eq]
  split <;> simp

theorem natDecimal_no_colon (n : Nat) : 58 ∉ natDecimal n := by
  intro h
  have := natDecimal_digits n 58 h
  omega

theorem sqlNatAux_append (xs ys : Str) (hxs : ∀ b ∈ xs, 48 ≤ b ∧ b ≤ 57) :
    ∀ acc, sqlNatAux acc (xs ++ ys) = sqlNatAux (sqlNatAux acc xs) ys := by
  induction xs with
  | nil => intro acc; rfl
  | cons c r ihr =>
    intro acc
    have hc : 48 ≤ c ∧ c ≤ 57 := hxs c (by simp)
    simp only [List.cons_append, sqlNatAux, hc, and_self, if_true]
    exact ihr (fun b hb => hxs b (by simp [hb])) _

theorem sqlNatAux_natDecimal : ∀ n : Nat, ∀ acc,
    sqlNatAux acc (natDecimal n) = acc * 10 ^ (natDecimal n).length + n := by
  intro n
  induction n using Nat.strong_induction_on with
  | _ n ih =>
    intro acc
    rw [natDecimal_eq]
    by_cases hn : n < 10
    · simp only [hn, if_true, sqlNatAux]
      have : 48 ≤ 48 + n ∧ 48 + n ≤ 57 := by omega
      simp only [this, and_self, if_true, sqlNatAux, List.length_cons,
        List.length_nil, pow_one]
      omega
    · simp only [hn, if_false]
      rw [sqlNatAux_append _ _ (natDecimal_digits (n / 10))]
      rw [ih (n / 10) (Nat.div_lt_self (by omega) (by omega))]
      have hd : 48 ≤ 48 + n % 10 ∧ 48 + n % 10 ≤ 57 := by omega
      simp only [sqlNatAux, hd, and_self, if_true, List.length_append,
        List.length_cons, List.length_nil]
      rw [pow_succ]
      have hmod : n % 10 < 10 := Nat.mod_lt _ (by omega)
      have hdiv : n / 10 * 10 + n % 10 = n := by omega
      ring_nf
      omega

theorem sqlNat_natDecimal (n : Nat) : sqlNat (natDecimal n) = n := by
  simp [sqlNat, sqlNatAux_natDecimal n 0]

theorem splitByte_ne_nil (sep : Nat) (l : Str) : splitByte sep l ≠ [] := by
  cases l with
  | nil => simp [splitByte]
  | cons c rest =>
    simp only [splitByte]
    split <;> simp

theorem splitByte_no_sep (sep : Nat) (l : Str) (h : sep ∉ l) : splitByte sep l = [l] := by
  induction l with
  | nil => rfl
  | cons c rest ih =>
    have hc : c ≠ sep := by intro hcs; exact h (by simp [hcs])
    have hr : splitByte sep rest = [rest] := ih (fun hm => h (by simp [hm]))
    simp [splitByte, hc, hr]

theorem splitByte_append_sep (sep : Nat) (xs ys : Str) (h : sep ∉ xs) :
    splitByte sep (xs ++ sep :: ys) = xs :: splitByte sep ys := by
  induction xs with
  | nil => simp [splitByte]
  | cons c rest ih =>
    have hc : c ≠ sep := by intro hcs; exact h (by simp [hcs])
    have hr := ih (fun hm => h (by simp [hm]))
    simp [splitByte, hc, hr]

theorem extractToken_bearer (t : Str) (h32 : 32 ∉ t) :
    extractToken (some (bearerHeader t)) = some t := by
  have hb : bearerHeader t = [66, 101, 97, 114, 101, 114] ++ 32 :: t := rfl
  have hpre : (32 : Nat) ∉ [66, 101, 97, 114, 101, 114] := by decide
  simp only [extractToken, hb, Option.some_bind,
    splitByte_append_sep 32 _ _ hpre, splitByte_no_sep 32 t h32]
  rfl

theorem authMiddleware_granted_of_mem (db : Db) (i : Nat) (nm : Str)
    (h256 : ∀ b ∈ nm, b < 256) (hnc : 58 ∉ nm)
    (hmem : ∃ r ∈ db.login, r.id = i ∧ r.strNombre = nm) :
    authMiddleware (some (bearerHeader (b64encode (natDecimal i ++ 58 :: nm)))) db
      = ⟨.granted (natDecimal i) nm, true⟩ := by
  have h32 : 32 ∉ b64encode (natDecimal i ++ 58 :: nm) := b64encode_no_space _
  have hne : b64encode (natDecimal i ++ 58 :: nm) ≠ [] := by
    obtain ⟨a, l, hl⟩ := List.exists_cons_of_ne_nil (natDecimal_ne_nil i)
    rw [hl, List.cons_append]
    exact b64encode_ne_nil _ _
  have hdec : b64decode (b64encode (natDecimal i ++ 58 :: nm)) = natDecimal i ++ 58 :: nm := by
    apply b64_roundtrip
    intro b hb
    rcases List.mem_append.mp hb with hb | hb
    · have := natDecimal_digits i b hb; omega
    · rcases List.mem_cons.mp hb with rfl | hb
      · omega
      · exact h256 b hb
  have hsplit : splitByte 58 (b64decode (b64encode (natDecimal i ++ 58 :: nm)))
      = [natDecimal i, nm] := by
    rw [hdec, splitByte_append_sep 58 _ _ (natDecimal_no_colon i),
      splitByte_no_sep 58 nm hnc]
  obtain ⟨r, hr, hri, hrn⟩ := hmem
  have hany : db.login.any
      (fun s => s.id == sqlNat (([natDecimal i, nm] : List Str).headD []) &&
        s.strNombre == nm) = true := by
    rw [List.any_eq_true]
    refine ⟨r, hr, ?_⟩
    simp [List.headD, sqlNat_natDecimal, hri, hrn]
  rw [authMiddleware, extractToken_bearer _ h32]
  simp only [hne, if_false, hsplit]
  simpa using hany

theorem filter_idem {α : Type} (p : α → Bool) (l : List α) :
    (l.filter p).filter p = l.filter p := by
  induction l with
  | nil => rfl
  | cons a l ih =>
    cases h : p a
    · simp [List.filter_cons, h, ih]
    · simp [List.filter_cons, h, ih]

theorem listMap_id {α : Type} (l : List α) (f : α → α) (h : ∀ a ∈ l, f a = a) :
    l.map f = l := by
  induction l with
  | nil => rfl
  | cons a l ih =>
    simp only [List.map_cons, h a (by simp)]
    rw [ih (fun b hb => h b (by simp [hb]))]

theorem xss_idem (x : Str) : xss (xss x) = xss x :=
  filter_idem _ x

theorem xss_safe_unchanged (y : Str) (h60 : 60 ∉ y) (h62 : 62 ∉ y) : xss y = y := by
  rw [xss, List.filter_eq_self]
  intro a ha
  have ha60 : a ≠ 60 := fun e => h60 (e ▸ ha)
  have ha62 : a ≠ 62 := fun e => h62 (e ▸ ha)
  simp [ha60, ha62]

theorem xss_no_markup (z : Str) : 60 ∉ xss z ∧ 62 ∉ xss z := by
  constructor <;> intro hmem <;> simp [xss, List.mem_filter] at hmem

/-! ## Claim theorems -/

/-- C1: the gateway is claimed to fail mutating requests with Forbidden
(403) when the session identity's role differs from the required
privileged role, uniformly on POST /movies and DELETE /movies/:id.  The
code performs no role comparison at all: with a valid credential for the
active user `eva` whose `rol` is `user` (not a privileged role),
`authMiddleware` grants the session, DELETE /movies/5 executes the
handler, deletes the row and answers 200, and POST /movies answers 201 —
never 403. -/
theorem role_check_not_enforced :
    (authMiddleware (some (bearerHeader tokenEva)) dbRole).result
      = .granted [49] [101, 118, 97] ∧
    deleteMovieRoute (some (bearerHeader tokenEva)) [53] dbRole
      = ⟨200, "Película eliminada correctamente", ⟨dbRole.login, []⟩, true⟩ ∧
    (postMoviesRoute (fun _ => true) (some (bearerHeader tokenEva))
      ⟨some [110], some [103], some [115], some [104], some 2, some [105], none⟩
      dbRole).status = 201 := by
  decide

/-- C5: a request to the protected DELETE /movies/:id route with no
Authorization header is rejected with 401 before the handler runs, and
the store — in particular record 42 — is untouched. -/
theorem missing_header_rejected :
    (∀ (db : Db) (idParam : Str),
      deleteMovieRoute none idParam db = ⟨401, "Acceso no autorizado", db, false⟩) ∧
    deleteMovieRoute none [52, 50] ⟨[], [movie42]⟩
      = ⟨401, "Acceso no autorizado", ⟨[], [movie42]⟩, false⟩ := by
  refine ⟨fun db idParam => rfl, rfl⟩

/-- C8: the upload route in src/server.js stores the file at the base
path joined with the raw caller-supplied name — no sanitization, no
timestamp namespacing — so a name like `../evil` traverses out of the
base path and two uploads with the same name map to the identical stored
path; only the src/unnamed/part_001 variant namespaces the name with
`Date.now()`, giving distinct paths for distinct timestamps. -/
theorem upload_path_uses_raw_name :
    (∀ base name, serverUploadPath base name = base ++ 47 :: name) ∧
    serverUploadPath uploadsBase evilName
      = [47, 117, 112, 108, 111, 97, 100, 115, 47, 46, 46, 47, 101, 118, 105, 108] ∧
    serverUploadPath uploadsBase photoName = serverUploadPath uploadsBase photoName ∧
    apiUploadPath uploadsBase 100 photoName ≠ apiUploadPath uploadsBase 101 photoName := by
  refine ⟨fun base name => rfl, by decide, rfl, by decide⟩

/-- C9: each FTP route is claimed to call `client.close()` on every exit
path.  In the code `close` sits inside the `try` after the awaited
operation, so when the operate step (`uploadFrom` / `list` / `remove`)
raises, the catch answers 500 with the opened connection never closed;
only the fault-free path closes it. -/
theorem ftp_connection_leaked_on_fault :
    ftpUploadRoute faultOperate true = ⟨500, true, false⟩ ∧
    ftpListRoute faultOperate = ⟨500, true, false⟩ ∧
    ftpDeleteRoute faultOperate true = ⟨500, true, false⟩ ∧
    ftpUploadRoute faultNone true = ⟨200, true, true⟩ ∧
    ftpListRoute faultNone = ⟨200, true, true⟩ ∧
    ftpDeleteRoute faultNone true = ⟨200, true, true⟩ := by
  decide

/-- C4 counterexample: a credential whose decoded bytes contain no `:`
(base64 of `abc`) is claimed to be rejected at the decode step, before
any store lookup.  In the code the decode step never fails and the
`login`-table lookup is still issued (with SQL NULL for the missing
identity segment); likewise an invalid encoding such as `!!!` is silently
decoded (to the empty byte string) rather than rejected, and also reaches
the lookup. -/
theorem no_separator_reaches_store_lookup :
    authMiddleware (some (bearerHeader tokenNoColon)) ⟨[], []⟩
      = ⟨.denied 401 "Token inválido", true⟩ ∧
    authMiddleware (some (bearerHeader [33, 33, 33])) ⟨[], []⟩
      = ⟨.denied 401 "Token inválido", true⟩ := by
  decide

/-- C3 counterexample: the store holds only an inactive record for `bob`
(`idEstadoUsuario = 0`), so no active record matches the decoded pair
`1:bob`; the claim then requires `authenticate` to fail with 401 and the
handler to be skipped.  But the middleware's query does not filter on
the active flag: the credential is granted and DELETE /movies/7 runs,
deleting the row and answering 200. -/
theorem inactive_record_passes_auth :
    (¬ ∃ r ∈ dbInactive.login,
        r.idEstadoUsuario = 1 ∧ r.id = 1 ∧ r.strNombre = [98, 111, 98]) ∧
    (authMiddleware (some (bearerHeader tokenBob)) dbInactive).result
      = .granted [49] [98, 111, 98] ∧
    deleteMovieRoute (some (bearerHeader tokenBob)) [55] dbInactive
      = ⟨200, "Película eliminada correctamente", ⟨dbInactive.login, []⟩, true⟩ := by
  refine ⟨by decide, by decide, by decide⟩

/-- C2 counterexample: the active record `a:b` (password `x`) matches the
login credentials, and the claim requires the issued credential to pass
`authenticate` over the unchanged store.  `/login` does answer 200 with
the base64 of `1:a:b`, but the middleware destructures only the first two
`:`-separated segments (`1` and `a`), finds no record named `a`, and
rejects the credential with 401. -/
theorem colon_identity_breaks_roundtrip :
    (loginRoute (some [97, 58, 98]) (some [120]) dbColon).status = 200 ∧
    (loginRoute (some [97, 58, 98]) (some [120]) dbColon).token
      = some [77, 84, 112, 104, 79, 109, 73, 61] ∧
    authMiddleware (some (bearerHeader [77, 84, 112, 104, 79, 109, 73, 61])) dbColon
      = ⟨.denied 401 "Token inválido", true⟩ := by
  refine ⟨rfl, rfl, by decide⟩

/-- C4 amended: decode reverses the base64 encoding for every encoded
byte string, but it is lenient, not failing: characters outside the
base64 alphabet are ignored rather than rejected, the decoded bytes are
split on every `:` with the first two segments taken, and when no `:`
separator is present the request is still rejected with 401 — via the
store lookup finding no record for the undefined identity segment, not
at the decode step. -/
theorem decode_lenient (db : Db) (t l : Str) (hl : ∀ b ∈ l, b < 256)
    (h32 : 32 ∉ t) (hne : t ≠ []) (hnosep : 58 ∉ b64decode t) :
    b64decode (b64encode l) = l ∧
    authMiddleware (some (bearerHeader t)) db = ⟨.denied 401 "Token inválido", true⟩ := by
  refine ⟨b64_roundtrip l hl, ?_⟩
  rw [authMiddleware, extractToken_bearer t h32]
  simp only [hne, if_false, splitByte_no_sep 58 _ hnosep]
  rfl

/-- Witness for `decode_lenient` at the concrete no-separator credential
(base64 of `abc`) over the empty store. -/
theorem decode_lenient_witness :
    b64decode (b64encode [97, 98, 99]) = [97, 98, 99] ∧
    authMiddleware (some (bearerHeader tokenNoColon)) ⟨[], []⟩
      = ⟨.denied 401 "Token inválido", true⟩ :=
  decode_lenient ⟨[], []⟩ tokenNoColon [97, 98, 99]
    (by decide) (by decide) (by decide) (by decide)

/-- C3 amended: when the decoded id/identity pair matches no record of
the `login` table at all — regardless of the record's active flag, which
the middleware's query does not filter on — `authenticate` rejects the
request with 401 (`Token inválido`) and the protected DELETE handler is
not executed, leaving the store unchanged. -/
theorem unknown_pair_rejected (db : Db) (t idParam : Str)
    (h32 : 32 ∉ t) (hne : t ≠ [])
    (hno : ∀ r ∈ db.login,
      ¬(r.id = sqlNat ((splitByte 58 (b64decode t)).headD []) ∧
        some r.strNombre = (splitByte 58 (b64decode t))[1]?)) :
    authMiddleware (some (bearerHeader t)) db = ⟨.denied 401 "Token inválido", true⟩ ∧
    deleteMovieRoute (some (bearerHeader t)) idParam db
      = ⟨401, "Token inválido", db, false⟩ := by
  have hmain : authMiddleware (some (bearerHeader t)) db
      = ⟨.denied 401 "Token inválido", true⟩ := by
    rw [authMiddleware, extractToken_bearer t h32]
    simp only [hne, if_false]
    cases hp : (splitByte 58 (b64decode t))[1]? with
    | none => rfl
    | some un =>
      have hany : db.login.any
          (fun r => r.id == sqlNat ((splitByte 58 (b64decode t)).headD []) &&
            r.strNombre == un) = false := by
        cases hv : db.login.any
            (fun r => r.id == sqlNat ((splitByte 58 (b64decode t)).headD []) &&
              r.strNombre == un) with
        | false => rfl
        | true =>
          exfalso
          obtain ⟨r, hr, hpred⟩ := List.any_eq_true.mp hv
          simp only [Bool.and_eq_true, beq_iff_eq] at hpred
          exact hno r hr ⟨hpred.1, by rw [hp, hpred.2]⟩
      simp only [hany]
      rfl
  refine ⟨hmain, ?_⟩
  have hres : (authMiddleware (some (bearerHeader t)) db).result
      = .denied 401 "Token inválido" := by rw [hmain]
  simp [deleteMovieRoute, hres]

/-- Witness for `unknown_pair_rejected`: the credential for `1:bob` over
the empty store. -/
theorem unknown_pair_rejected_witness :
    authMiddleware (some (bearerHeader tokenBob)) ⟨[], []⟩
      = ⟨.denied 401 "Token inválido", true⟩ ∧
    deleteMovieRoute (some (bearerHeader tokenBob)) [55] ⟨[], []⟩
      = ⟨401, "Token inválido", ⟨[], []⟩, false⟩ :=
  unknown_pair_rejected ⟨[], []⟩ tokenBob [55]
    (by decide) (by decide) (by decide)

/-- C6: for a create (POST /movies) or update (PUT /movies/:id) request
that passed the authentication gateway, if any of the six required body
fields is absent the handler answers 400 (`Faltan parámetros requeridos`)
and issues no insert or update: the store is exactly as before. -/
theorem missing_field_returns_400 (validUrl : Str → Bool) (h : Option Str)
    (idParam : Str) (b : MovieBody) (db : Db)
    (hauth : (authMiddleware h db).result.isGranted = true)
    (hmissing : b.strNombre = none ∨ b.strGenero = none ∨ b.strSinapsis = none ∨
      b.strHorario = none ∨ b.idSala = none ∨ b.strImagen = none) :
    postMoviesRoute validUrl h b db = ⟨400, "Faltan parámetros requeridos", db, true⟩ ∧
    putMovieRoute validUrl h idParam b db
      = ⟨400, "Faltan parámetros requeridos", db, true⟩ := by
  have hm : missingRequired b = true := by
    rcases hmissing with hc | hc | hc | hc | hc | hc <;>
      simp [missingRequired, falsyS, falsyI, hc]
  cases hr : (authMiddleware h db).result with
  | denied s m =>
    rw [hr] at hauth
    simp [AuthResult.isGranted] at hauth
  | granted uid un =>
    constructor
    · simp [postMoviesRoute, hr, hm]
    · simp [putMovieRoute, hr, hm]

/-- Witness for `missing_field_returns_400`: `eva`'s valid credential with
a body missing `strNombre`. -/
theorem missing_field_returns_400_witness :
    postMoviesRoute (fun _ => true) (some (bearerHeader tokenEva))
        ⟨none, some [103], some [115], some [104], some 2, some [105], none⟩ dbRole
      = ⟨400, "Faltan parámetros requeridos", dbRole, true⟩ ∧
    putMovieRoute (fun _ => true) (some (bearerHeader tokenEva)) [53]
        ⟨none, some [103], some [115], some [104], some 2, some [105], none⟩ dbRole
      = ⟨400, "Faltan parámetros requeridos", dbRole, true⟩ :=
  missing_field_returns_400 (fun _ => true) (some (bearerHeader tokenEva)) [53]
    ⟨none, some [103], some [115], some [104], some 2, some [105], none⟩ dbRole
    (by decide) (Or.inl rfl)

/-- C10: an authenticated DELETE /movies/:id, or PUT /movies/:id with all
required fields present, whose id matches no record answers the very same
success response (200, `Película eliminada correctamente` /
`Película actualizada correctamente`) as when a record exists — the
handlers never inspect the affected-row count — and the store is
unchanged. -/
theorem mutation_success_ignores_rowcount (validUrl : Str → Bool) (h : Option Str)
    (idParam : Str) (db : Db)
    (hauth : (authMiddleware h db).result.isGranted = true)
    (hnone : ∀ m ∈ db.cine, m.id ≠ sqlNat idParam)
    (n g sy ho img : Str) (sala : Int)
    (hn : n ≠ []) (hg : g ≠ []) (hsy : sy ≠ []) (hho : ho ≠ [])
    (hsala : sala ≠ 0) (himg : img ≠ []) :
    deleteMovieRoute h idParam db
      = ⟨200, "Película eliminada correctamente", db, true⟩ ∧
    putMovieRoute validUrl h idParam
        ⟨some n, some g, some sy, some ho, some sala, some img, none⟩ db
      = ⟨200, "Película actualizada correctamente", db, true⟩ := by
  have hm : missingRequired ⟨some n, some g, some sy, some ho, some sala, some img, none⟩
      = false := by
    simp [missingRequired, falsyS, falsyI, List.isEmpty_iff, hn, hg, hsy, hho, hsala, himg]
  cases hr : (authMiddleware h db).result with
  | denied s m =>
    rw [hr] at hauth
    simp [AuthResult.isGranted] at hauth
  | granted uid un =>
    constructor
    · have hfilter : db.cine.filter (fun m => !(m.id == sqlNat idParam)) = db.cine := by
        rw [List.filter_eq_self]
        intro m hm
        simp [hnone m hm]
      simp [deleteMovieRoute, hr, hfilter]
    · simp only [putMovieRoute, hr, hm, Bool.false_eq_true, if_false]
      have hmap : ∀ f : Movie → Movie, (∀ m ∈ db.cine, f m = m) →
          (⟨200, "Película actualizada correctamente",
            { db with cine := db.cine.map f }, true⟩ : RouteOutcome)
          = ⟨200, "Película actualizada correctamente", db, true⟩ := by
        intro f hf
        rw [listMap_id db.cine f hf]
      apply hmap
      intro m hmem
      simp [hnone m hmem]

/-- Witness for `mutation_success_ignores_rowcount`: `eva`'s credential,
id parameter `9` matching no record of the store. -/
theorem mutation_success_ignores_rowcount_witness :
    deleteMovieRoute (some (bearerHeader tokenEva)) [57] dbRole
      = ⟨200, "Película eliminada correctamente", dbRole, true⟩ ∧
    putMovieRoute (fun _ => true) (some (bearerHeader tokenEva)) [57]
        ⟨some [110], some [103], some [115], some [104], some 2, some [105], none⟩ dbRole
      = ⟨200, "Película actualizada correctamente", dbRole, true⟩ :=
  mutation_success_ignores_rowcount (fun _ => true) (some (bearerHeader tokenEva))
    [57] dbRole (by decide) (by decide)
    [110] [103] [115] [104] [105] 2
    (by decide) (by decide) (by decide) (by decide) (by decide) (by decide)

/-- C2 amended: for every identity/secret pair matching an active
credential record whose identity is a byte string free of `:` (and with
identity and secret non-empty so the request passes the missing-fields
guard), `/login` answers 200 with the base64 credential of
`{id}:{identity}` for the first matching record, and presenting that
credential as `Authorization: Bearer <credential>` to `authMiddleware`
over the unchanged store is granted rather than rejected with 401. -/
theorem login_token_authenticates (db : Db) (r : LoginRecord)
    (hwf : ∀ s ∈ db.login, (∀ b ∈ s.strNombre, b < 256) ∧ 58 ∉ s.strNombre)
    (hr : r ∈ db.login) (hact : r.idEstadoUsuario = 1)
    (hnne : r.strNombre ≠ []) (hpne : r.strPwd ≠ []) :
    (loginRoute (some r.strNombre) (some r.strPwd) db).status = 200 ∧
    ∃ t, (loginRoute (some r.strNombre) (some r.strPwd) db).token = some t ∧
      (∃ u ∈ db.login, t = b64encode (natDecimal u.id ++ 58 :: u.strNombre)) ∧
      ∃ uid un, (authMiddleware (some (bearerHeader t)) db).result
        = AuthResult.granted uid un := by
  have hfalsy : (falsyS (some r.strNombre) || falsyS (some r.strPwd)) = false := by
    simp [falsyS, List.isEmpty_iff, hnne, hpne]
  have hmem : r ∈ db.login.filter
      (fun s => s.strNombre == r.strNombre && s.strPwd == r.strPwd &&
        s.idEstadoUsuario == 1) :=
    List.mem_filter.mpr ⟨hr, by simp [hact]⟩
  cases hf : db.login.filter
      (fun s => s.strNombre == r.strNombre && s.strPwd == r.strPwd &&
        s.idEstadoUsuario == 1) with
  | nil =>
    rw [hf] at hmem
    exact absurd hmem (List.not_mem_nil _)
  | cons u rest =>
    have hu : u ∈ db.login := by
      have : u ∈ db.login.filter
          (fun s => s.strNombre == r.strNombre && s.strPwd == r.strPwd &&
            s.idEstadoUsuario == 1) := by
        rw [hf]
        exact List.mem_cons_self _ _
      exact List.mem_of_mem_filter this
    have route_eq : loginRoute (some r.strNombre) (some r.strPwd) db
        = ⟨200, some (b64encode (natDecimal u.id ++ 58 :: u.strNombre))⟩ := by
      simp only [loginRoute, hfalsy, Bool.false_eq_true, if_false, Option.getD_some, hf]
    refine ⟨by rw [route_eq], b64encode (natDecimal u.id ++ 58 :: u.strNombre),
      by rw [route_eq], ⟨u, hu, rfl⟩, natDecimal u.id, u.strNombre, ?_⟩
    have hgr := authMiddleware_granted_of_mem db u.id u.strNombre
      (hwf u hu).1 (hwf u hu).2 ⟨u, hu, rfl, rfl⟩
    rw [hgr]

/-- Witness for `login_token_authenticates`: the active record `eva`. -/
theorem login_token_authenticates_witness :
    (loginRoute (some [101, 118, 97]) (some [112]) dbRole).status = 200 ∧
    ∃ t, (loginRoute (some [101, 118, 97]) (some [112]) dbRole).token = some t ∧
      (∃ u ∈ dbRole.login, t = b64encode (natDecimal u.id ++ 58 :: u.strNombre)) ∧
      ∃ uid un, (authMiddleware (some (bearerHeader t)) dbRole).result
        = AuthResult.granted uid un :=
  login_token_authenticates dbRole ⟨1, [101, 118, 97], [112], 1, [117, 115, 101, 114]⟩
    (by decide) (by decide) rfl (by decide) (by decide)

/-- C7: the sanitizer is idempotent, neutralizes the script markup of the
spec scenario, preserves markup-free text unchanged, and both the create
and the update handler apply it to every persisted free-text field
(`strNombre`, `strGenero`, `strSinapsis`, `strHorario`, `strImagen`, and
the optional `strTrailerURL`). -/
theorem sanitize_contract (x y n g sy ho img u idParam : Str) (sala : Int)
    (validUrl : Str → Bool) (h : Option Str) (db : Db)
    (hy60 : 60 ∉ y) (hy62 : 62 ∉ y)
    (hauth : (authMiddleware h db).result.isGranted = true)
    (hn : n ≠ []) (hg : g ≠ []) (hsy : sy ≠ []) (hho : ho ≠ [])
    (hsala : sala ≠ 0) (himg : img ≠ []) (hu : u ≠ [])
    (hvu : validUrl u = true) :
    xss (xss x) = xss x ∧
    xss y = y ∧
    (60 ∉ xss scriptTitle ∧ 62 ∉ xss scriptTitle) ∧
    postMoviesRoute validUrl h
        ⟨some n, some g, some sy, some ho, some sala, some img, some u⟩ db
      = ⟨201, "Película agregada correctamente",
          { db with cine := db.cine ++
            [⟨nextId db.cine, xss n, xss g, xss sy, xss ho, sala, xss img,
              some (xss u)⟩] },
          true⟩ ∧
    putMovieRoute validUrl h idParam
        ⟨some n, some g, some sy, some ho, some sala, some img, some u⟩ db
      = ⟨200, "Película actualizada correctamente",
          { db with cine := db.cine.map (fun m =>
            if m.id == sqlNat idParam then
              ⟨m.id, xss n, xss g, xss sy, xss ho, sala, xss img, some (xss u)⟩
            else m) },
          true⟩ := by
  have hm : missingRequired ⟨some n, some g, some sy, some ho, some sala, some img, some u⟩
      = false := by
    simp [missingRequired, falsyS, falsyI, List.isEmpty_iff, hn, hg, hsy, hho, hsala, himg]
  have huE : u.isEmpty = false := by
    simp [List.isEmpty_iff, hu]
  cases hr : (authMiddleware h db).result with
  | denied s m =>
    rw [hr] at hauth
    simp [AuthResult.isGranted] at hauth
  | granted uid un =>
    refine ⟨xss_idem x, xss_safe_unchanged y hy60 hy62, xss_no_markup _, ?_, ?_⟩
    · simp [postMoviesRoute, hr, hm, huE, hvu]
    · simp [putMovieRoute, hr, hm, huE, hvu]

/-- Witness for `sanitize_contract` at the spec scenario string and
concrete request data. -/
theorem sanitize_contract_witness :
    xss (xss scriptTitle) = xss scriptTitle ∧
    xss [84] = [84] ∧
    (60 ∉ xss scriptTitle ∧ 62 ∉ xss scriptTitle) ∧
    postMoviesRoute (fun _ => true) (some (bearerHeader tokenEva))
        ⟨some [110], some [103], some [115], some [104], some 2, some [105],
          some [104, 116]⟩ dbRole
      = ⟨201, "Película agregada correctamente",
          { dbRole with cine := dbRole.cine ++
            [⟨nextId dbRole.cine, xss [110], xss [103], xss [115], xss [104], 2,
              xss [105], some (xss [104, 116])⟩] },
          true⟩ ∧
    putMovieRoute (fun _ => true) (some (bearerHeader tokenEva)) [57]
        ⟨some [110], some [103], some [115], some [104], some 2, some [105],
          some [104, 116]⟩ dbRole
      = ⟨200, "Película actualizada correctamente",
          { dbRole with cine := dbRole.cine.map (fun m =>
            if m.id == sqlNat [57] then
              ⟨m.id, xss [110], xss [103], xss [115], xss [104], 2, xss [105],
                some (xss [104, 116])⟩
            else m) },
          true⟩ :=
  sanitize_contract scriptTitle [84] [110] [103] [115] [104] [105] [104, 116] [57] 2
    (fun _ => true) (some (bearerHeader tokenEva)) dbRole
    (by decide) (by decide) (by decide) (by decide) (by decide) (by decide)
    (by decide) (by decide) (by decide) (by decide) (by decide)

end Cartelera
